import Mathlib

/-!
# GoTelemetryExample: a shallow embedding of `main.go`

The program is a small HTTP service instrumented with OpenTelemetry.  Its
functions are embedded as state-passing Lean functions over a `World` that
holds everything the Go code can observe or change: the wall clock, the
process environment, the process-wide tracer provider and propagator, the
response writers, and a chronological trace of the effects performed (spans
started and ended, lines printed, log calls, routes registered).

A Go function that may panic returns an `Outcome`; `defer` is embedded by
running the deferred call on every exit path, panicking ones included.
-/

namespace GoTelemetryExample

/-! ## Values of the OpenTelemetry API that the program constructs -/

/-- An `attribute.KeyValue` with a string value. -/
structure KeyValue where
  key : String
  value : String
deriving DecidableEq

/-- The call `attribute.String(k, v)`. -/
def attribute.String (k v : String) : KeyValue := ⟨k, v⟩

/-- The constant `semconv.SchemaURL` of semconv v1.17.0. -/
def semconv.SchemaURL : String := "https://opentelemetry.io/schemas/1.17.0"

/-- The call `semconv.ServiceName(v)`: the attribute `service.name`. -/
def semconv.ServiceName (v : String) : KeyValue := ⟨"service.name", v⟩

/-- The call `semconv.ServiceVersion(v)`: the attribute `service.version`. -/
def semconv.ServiceVersion (v : String) : KeyValue := ⟨"service.version", v⟩

/-- A `resource.Resource`: the schema URL and the attributes it was built with. -/
structure Resource where
  schemaURL : String
  attrs : List KeyValue
deriving DecidableEq

/-- The call `resource.NewWithAttributes(schemaURL, attrs...)`. -/
def resource.NewWithAttributes (schemaURL : String) (attrs : List KeyValue) : Resource :=
  ⟨schemaURL, attrs⟩

/-- The samplers of `sdktrace`. -/
inductive Sampler
  | alwaysSample
  | neverSample
  | traceIDRatioBased (num den : Nat)
  | parentBased (root : Sampler)
deriving DecidableEq

/-- What a sampler decides from: whether there is a sampled parent, and the
trace id (reduced to a number). -/
structure SamplingParameters where
  parentSampled : Option Bool
  traceID : Nat
deriving DecidableEq

/-- The sampling decision `Sampler.ShouldSample`, `true` for record-and-sample. -/
def Sampler.ShouldSample : Sampler → SamplingParameters → Bool
  | .alwaysSample, _ => true
  | .neverSample, _ => false
  | .traceIDRatioBased num den, p => decide (p.traceID * den < num * 2 ^ 63)
  | .parentBased root, p =>
    match p.parentSampled with
    | some b => b
    | none => root.ShouldSample p

/-- The configuration of an `otlptracehttp` client. -/
structure Client where
  endpoint : String
  insecure : Bool
  urlPath : String
deriving DecidableEq

/-- A client option (`otlptracehttp.Option`). -/
abbrev ClientOption := Client → Client

/-- The option `otlptracehttp.WithInsecure()`. -/
def otlptracehttp.WithInsecure : ClientOption := fun c => { c with insecure := true }

/-- The option `otlptracehttp.WithEndpoint(endpoint)`. -/
def otlptracehttp.WithEndpoint (endpoint : String) : ClientOption :=
  fun c => { c with endpoint := endpoint }

/-- The option `otlptracehttp.WithURLPath(urlPath)`. -/
def otlptracehttp.WithURLPath (urlPath : String) : ClientOption :=
  fun c => { c with urlPath := urlPath }

/-- The call `otlptracehttp.NewClient(opts...)`: the options applied in order
to the library defaults. -/
def otlptracehttp.NewClient (opts : List ClientOption) : Client :=
  opts.foldl (fun c o => o c) ⟨"localhost:4318", false, "/v1/traces"⟩

/-- A Go `error`: a plain one, or one made by `fmt.Errorf` with `%w`, which
keeps the wrapped error. -/
inductive GoError
  | plain (msg : String)
  | wrapped (msg : String) (inner : GoError)
deriving DecidableEq

/-- The method `Error()`. -/
def GoError.Error : GoError → String
  | .plain msg => msg
  | .wrapped msg _ => msg

/-- The method `Unwrap()` (`errors.Unwrap`). -/
def GoError.Unwrap : GoError → Option GoError
  | .plain _ => none
  | .wrapped _ inner => some inner

/-- The call `fmt.Errorf(pre + "%w", err)` for a format that ends in `%w`. -/
def fmt.Errorf_w (pre : String) (err : GoError) : GoError :=
  .wrapped (pre ++ err.Error) err

/-- An `otlptrace.Exporter`, holding its client. -/
structure Exporter where
  client : Client
deriving DecidableEq

/-- A span processor of the SDK. -/
inductive SpanProcessor
  | simple (e : Exporter)
  | batch (e : Exporter)
deriving DecidableEq

/-- An `sdktrace.TracerProvider`: its configuration. -/
structure TracerProvider where
  sampler : Sampler
  processors : List SpanProcessor
  resource : Resource
deriving DecidableEq

/-- A tracer provider option (`sdktrace.TracerProviderOption`). -/
abbrev TracerProviderOption := TracerProvider → TracerProvider

/-- The option `sdktrace.WithSampler(s)`. -/
def sdktrace.WithSampler (s : Sampler) : TracerProviderOption :=
  fun tp => { tp with sampler := s }

/-- The call `sdktrace.AlwaysSample()`. -/
def sdktrace.AlwaysSample : Sampler := .alwaysSample

/-- The option `sdktrace.WithBatcher(e)`: registers a batch span processor
over the exporter. -/
def sdktrace.WithBatcher (e : Exporter) : TracerProviderOption :=
  fun tp => { tp with processors := tp.processors ++ [.batch e] }

/-- The option `sdktrace.WithResource(r)`. -/
def sdktrace.WithResource (r : Resource) : TracerProviderOption :=
  fun tp => { tp with resource := r }

/-- The call `sdktrace.NewTracerProvider(opts...)`: the options applied in
order to the SDK defaults (parent-based always-sample, no processor, the
default resource). -/
def sdktrace.NewTracerProvider (opts : List TracerProviderOption) : TracerProvider :=
  opts.foldl (fun tp o => o tp)
    ⟨.parentBased .alwaysSample, [], resource.NewWithAttributes "" []⟩

/-- A text-map propagator. -/
inductive Propagator
  | noop
  | traceContext
  | baggage
  | composite (ps : List Propagator)

/-- The call `propagation.NewCompositeTextMapPropagator(ps...)`. -/
def propagation.NewCompositeTextMapPropagator (ps : List Propagator) : Propagator :=
  .composite ps

/-- The process-wide tracer provider held by package `otel`: the default
delegating one, or the SDK provider installed by `otel.SetTracerProvider`. -/
inductive GlobalProvider
  | default
  | sdk (tp : TracerProvider)
deriving DecidableEq

/-! ## Requests, responses and the world -/

/-- A `context.Context`, reduced to the span it carries. -/
structure Context where
  span : Option Nat
deriving DecidableEq

/-- The call `context.Background()`. -/
def context.Background : Context := ⟨none⟩

/-- An `*http.Request`: method, `URL.Path`, its context, and the route
variables and route template that the router stores with it. -/
structure Request where
  method : String
  path : String
  ctx : Context
  vars : List (String × String)
  route : Option String
deriving DecidableEq

/-- What has been sent on one `http.ResponseWriter`: the status line (`none`
until the header is written), the headers and the body. -/
structure Response where
  status : Option Nat
  headers : List (String × String)
  body : String
deriving DecidableEq

/-- A fresh response: nothing written. -/
def Response.empty : Response := ⟨none, [], ""⟩

/-- An `http.ResponseWriter`, as a handle into the responses of the world. -/
abbrev ResponseWriter := Nat

/-- The status of a span (`codes.Code`). -/
inductive StatusCode
  | unset
  | error
  | ok
deriving DecidableEq

/-- An operand of a `log.Printf` or `fmt.Println` call. -/
inductive FmtArg
  | str (s : String)
  | time (t : Nat)
  | duration (d : Nat)
  | provider (p : GlobalProvider)
  | err (e : GoError)
deriving DecidableEq

/-- The effects the program performs, in the order performed. -/
inductive Event
  | spanStart (id : Nat) (tracer : String) (parent : Context) (name : String)
      (attrs : List KeyValue)
  | spanSetStatus (id : Nat) (code : StatusCode)
  | spanEnd (id : Nat)
  | println (args : List FmtArg)
  | logPrintf (format : String) (args : List FmtArg)
  | logPrint (args : List FmtArg)
  | exit (code : Nat)
  | exporterNew (client : Client)
  | routerUse (middleware : String)
  | handleFunc (pattern : String)
  | listenAndServe (addr : String)
  | call (w : ResponseWriter) (r : Request)
deriving DecidableEq

/-- Everything the program observes or changes. -/
structure World where
  /-- The current reading of the clock. -/
  clock : Nat
  /-- How far the clock advances before each of the coming readings. -/
  ticks : List Nat
  /-- The process environment. -/
  env : List (String × String)
  /-- The process-wide tracer provider of package `otel`. -/
  tracerProvider : GlobalProvider
  /-- The process-wide propagator of package `otel`. -/
  propagator : Propagator
  /-- The id the next started span gets. -/
  nextSpan : Nat
  /-- What has been sent on each response writer. -/
  responses : ResponseWriter → Response
  /-- The effects so far, oldest first. -/
  trace : List Event

/-- A world at process start: nothing installed, nothing written. -/
def World.initial (env : List (String × String)) (ticks : List Nat) : World :=
  { clock := 0, ticks := ticks, env := env, tracerProvider := .default,
    propagator := .noop, nextSpan := 0, responses := fun _ => Response.empty,
    trace := [] }

/-- Appends one effect to the trace. -/
def World.emit (s : World) (e : Event) : World :=
  { s with trace := s.trace ++ [e] }

/-- The call `time.Now()`: the clock advances by the next tick and is read. -/
def time.Now (s : World) : Nat × World :=
  match s.ticks with
  | [] => (s.clock, s)
  | d :: ds => (s.clock + d, { s with clock := s.clock + d, ticks := ds })

/-- The call `time.Since(start)`. -/
def time.Since (start : Nat) (s : World) : Nat × World :=
  let (now, s1) := time.Now s
  (now - start, s1)

/-- How a Go call ends: it returns, or it panics with a value. -/
inductive Outcome
  | returned
  | panicked (v : String)
deriving DecidableEq

/-- An `http.Handler`: the method `ServeHTTP(w, r)`. -/
abbrev Handler := ResponseWriter → Request → World → Outcome × World

/-- The method `Write` of a response writer: the first write sends status 200
unless a header was written before. -/
def Response.Write (resp : Response) (data : String) : Response :=
  { resp with status := some (resp.status.getD 200), body := resp.body ++ data }

/-- The method `WriteHeader`: only the first status counts. -/
def Response.WriteHeader (resp : Response) (code : Nat) : Response :=
  { resp with status := some (resp.status.getD code) }

/-- The call `w.Header().Set(key, value)`: the value replaces any earlier one
of that key. -/
def Response.SetHeader (resp : Response) (key value : String) : Response :=
  { resp with headers := resp.headers.filter (fun kv => kv.1 ≠ key) ++ [(key, value)] }

/-- Replaces the response of one writer. -/
def World.setResponse (s : World) (w : ResponseWriter) (resp : Response) : World :=
  { s with responses := fun x => if x = w then resp else s.responses x }

/-- Expands the `%s` verbs of a format over string operands, left to right;
a verb with no operand left prints Go's `%!s(MISSING)`. -/
def sprintfAux : List Char → List String → List Char
  | [], _ => []
  | [c], _ => [c]
  | c :: d :: rest, args =>
    if c = '%' ∧ d = 's' then
      match args with
      | a :: args2 => a.data ++ sprintfAux rest args2
      | [] => "%!s(MISSING)".data ++ sprintfAux rest []
    else c :: sprintfAux (d :: rest) args

/-- The call `fmt.Sprintf(format, args...)` for string operands under `%s`. -/
def fmt.Sprintf (format : String) (args : List String) : String :=
  ⟨sprintfAux format.data args⟩

/-- The call `fmt.Fprintf(w, format, args...)` on a response writer. -/
def fmt.Fprintf (w : ResponseWriter) (format : String) (args : List String)
    (s : World) : World :=
  s.setResponse w ((s.responses w).Write (fmt.Sprintf format args))

/-! ## Tracing API -/

/-- A `trace.Tracer`: its instrumentation scope. -/
structure Tracer where
  name : String
  version : String
  schemaURL : String
deriving DecidableEq

/-- A `trace.Span` handle. -/
structure Span where
  id : Nat
deriving DecidableEq

/-- The method `Tracer.Start(ctx, name, trace.WithAttributes(attrs...))`: a new
span under `ctx`, and the context that carries it. -/
def Tracer.Start (t : Tracer) (ctx : Context) (name : String) (attrs : List KeyValue)
    (s : World) : (Context × Span) × World :=
  ((⟨some s.nextSpan⟩, ⟨s.nextSpan⟩),
    { s with nextSpan := s.nextSpan + 1,
             trace := s.trace ++ [.spanStart s.nextSpan t.name ctx name attrs] })

/-- The method `Span.End()`. -/
def Span.End (sp : Span) (s : World) : World := s.emit (.spanEnd sp.id)

/-- The method `Span.SetStatus(code, _)`. -/
def Span.SetStatus (sp : Span) (code : StatusCode) (s : World) : World :=
  s.emit (.spanSetStatus sp.id code)

/-! ## `main.go` -/

/-- The constant `instrumentationName`. -/
def instrumentationName : String := "github.com/VarunBhaaskar/GoTelemetryExample"

/-- The constant `instrumentationVersion`. -/
def instrumentationVersion : String := "v0.1.0"

/-- The package variable `tracer`. -/
def tracer : Tracer := ⟨instrumentationName, instrumentationVersion, semconv.SchemaURL⟩

/-- The function `getPage(ctx, id)`. -/
def getPage (ctx : Context) (id : String) (s : World) : String × World :=
  let ((_, span), s1) := tracer.Start ctx "getPage" [attribute.String "id" id] s
  -- defer span.End(): runs when either return below is taken
  if id = "123" then
    ("Trace Testing", span.End s1)
  else
    ("unknown page", span.End s1)

/-- The call `mux.Vars(r)` followed by an index `vars[key]`: the value, or the
empty string for a missing key. -/
def mux.Vars (r : Request) (key : String) : String :=
  ((r.vars.find? (fun kv => kv.1 = key)).map (fun kv => kv.2)).getD ""

/-- The function `booksPageGetHandler(w, r)`. -/
def booksPageGetHandler : Handler := fun w r s =>
  let vars := mux.Vars r
  let title := vars "title"
  let page := vars "page"
  let (res, s1) := getPage r.ctx page s
  (.returned,
    fmt.Fprintf w "You've requested the book: %s on page %s. The response is %s\n"
      [title, page, res] s1)

/-- The function `rootHandler(w, r)`. -/
def rootHandler : Handler := fun w _ s =>
  (.returned, fmt.Fprintf w "Go Server for GoTelemetryExample is up and running!\n" [] s)

/-- The function `helloHandler(w, r)`. -/
def helloHandler : Handler := fun w _ s =>
  (.returned,
    fmt.Fprintf w
      "Hello there! I am GoTelemetryExample! I take requests in \n1. / \n2. /books/{title}/page/{page}\n"
      [] s)

/-- The function `errorEndpoint(w, r)`: its whole body is the `panic`. -/
def errorEndpoint : Handler := fun _ _ s =>
  (.panicked "Deliberatrely Panicing here!! ", s)

/-- The call `otel.GetTracerProvider()`. -/
def otel.GetTracerProvider (s : World) : GlobalProvider := s.tracerProvider

/-- The call `otel.SetTracerProvider(tp)`. -/
def otel.SetTracerProvider (tp : TracerProvider) (s : World) : World :=
  { s with tracerProvider := .sdk tp }

/-- The call `otel.SetTextMapPropagator(p)`. -/
def otel.SetTextMapPropagator (p : Propagator) (s : World) : World :=
  { s with propagator := p }

/-- The call `fmt.Println(args...)` on standard output. -/
def fmt.Println (args : List FmtArg) (s : World) : World := s.emit (.println args)

/-- The call `log.Printf(format, args...)`: one line on the standard logger. -/
def log.Printf (format : String) (args : List FmtArg) (s : World) : World :=
  s.emit (.logPrintf format args)

/-- The type `Logger`. -/
structure Logger where
  handler : Handler

/-- The method `(*Logger).ServeHTTP(w, r)`.  The body has no `defer` and no
`recover`: when the wrapped handler panics, the statements after the call do
not run and the panic leaves `ServeHTTP`. -/
def Logger.ServeHTTP (l : Logger) : Handler := fun w r s =>
  let (start, s1) := time.Now s
  match l.handler w r s1 with
  | (.panicked v, s2) => (.panicked v, s2)
  | (.returned, s2) =>
    let tp := otel.GetTracerProvider s2
    let s3 := fmt.Println [.provider tp] s2
    let (now, s4) := time.Now s3
    let (since, s5) := time.Since start s4
    (.returned,
      log.Printf "%v %s %s %v" [.time now, .str r.method, .str r.path, .duration since] s5)

/-- The function `NewLogger(handlerToWrap)`. -/
def NewLogger (handlerToWrap : Handler) : Logger := ⟨handlerToWrap⟩

/-- The function `newResource()`. -/
def newResource : Resource :=
  resource.NewWithAttributes semconv.SchemaURL
    [ semconv.ServiceName "gotelemetryexample",
      semconv.ServiceVersion "0.0.1",
      attribute.String "service.name" "gotelemetryexample",
      attribute.String "service.application" "AZA",
      attribute.String "application.name" "gotelemetryexample",
      attribute.String "application.id" "AZA" ]

/-- The call `os.LookupEnv(key)`: the value and whether the variable is set,
as an `Option`. -/
def os.LookupEnv (key : String) (s : World) : Option String :=
  (s.env.find? (fun kv => kv.1 = key)).map (fun kv => kv.2)

/-- The call `os.Getenv(key)`: the empty string when the variable is unset. -/
def os.Getenv (key : String) (s : World) : String := (os.LookupEnv key s).getD ""

/-- The call `otlptrace.New(ctx, client)`: the exporter is built over the
client and started; `clientStart` is the outcome of starting the client
(`none` for success), which the library and the network decide. -/
def otlptrace.New (clientStart : Client → Option GoError) (_ctx : Context) (client : Client)
    (s : World) : Except GoError Exporter × World :=
  match clientStart client with
  | some err => (.error err, s.emit (.exporterNew client))
  | none => (.ok ⟨client⟩, s.emit (.exporterNew client))

/-- The function `initTracer()`, returning the pair `(provider, error)`. -/
def initTracer (clientStart : Client → Option GoError) (s : World) :
    (Option TracerProvider × Option GoError) × World :=
  let ctx := context.Background
  let otelAgentAddr :=
    match os.LookupEnv "OTEL_EXPORTER_OTLP_ENDPOINT" s with
    | some v => v
    | none => "0.0.0.0:4317"
  let client := otlptracehttp.NewClient
    [ otlptracehttp.WithInsecure,
      otlptracehttp.WithEndpoint otelAgentAddr,
      otlptracehttp.WithURLPath "" ]
  match otlptrace.New clientStart ctx client s with
  | (.error err, s1) => ((none, some (fmt.Errorf_w "creating OTLP trace exporter: " err)), s1)
  | (.ok exporter, s1) =>
    let tp := sdktrace.NewTracerProvider
      [ sdktrace.WithSampler sdktrace.AlwaysSample,
        sdktrace.WithBatcher exporter,
        sdktrace.WithResource newResource ]
    let s2 := otel.SetTracerProvider tp s1
    let s3 := otel.SetTextMapPropagator
      (propagation.NewCompositeTextMapPropagator [.traceContext, .baggage]) s2
    ((some tp, none), s3)

/-! ## The router and the tracing middleware (imported packages) -/

/-- Splits a path at every `/`. -/
def splitSlash : List Char → List (List Char)
  | [] => [[]]
  | c :: cs =>
    if c = '/' then [] :: splitSlash cs
    else
      match splitSlash cs with
      | [] => [[c]]
      | seg :: segs => (c :: seg) :: segs

/-- The elements of a rooted path that `path.Clean` keeps: empty and `.`
elements are dropped, `..` removes the element before it (and is dropped at
the root). `stack` holds the kept elements, last first. -/
def cleanSegs : List (List Char) → List (List Char) → List (List Char)
  | stack, [] => stack.reverse
  | stack, seg :: rest =>
    if seg = [] ∨ seg = ['.'] then cleanSegs stack rest
    else if seg = ['.', '.'] then cleanSegs stack.tail rest
    else cleanSegs (seg :: stack) rest

/-- The function `cleanPath` of `gorilla/mux`: `path.Clean` of the rooted
path, with a trailing slash put back. -/
def mux.cleanPath (p : String) : String :=
  if p = "" then "/"
  else
    let p1 := if p.data.head? = some '/' then p.data else '/' :: p.data
    let np := '/' :: List.intercalate ['/'] (cleanSegs [] (splitSlash p1))
    if p1.getLast? = some '/' ∧ np ≠ ['/'] then ⟨np ++ ['/']⟩ else ⟨np⟩

/-- One element of a route template against one element of a path: a
`{name}` element takes any non-empty path element as the variable `name`,
any other element must be equal. -/
def matchSeg (tpl seg : List Char) : Option (List (String × String)) :=
  match tpl with
  | '\x7b' :: name =>
    if name.getLast? = some '\x7d' then
      if seg = [] then none else some [(⟨name.dropLast⟩, ⟨seg⟩)]
    else if tpl = seg then some [] else none
  | _ => if tpl = seg then some [] else none

/-- The elements of a template against the elements of a path, collecting the
variables. -/
def matchSegs : List (List Char) → List (List Char) → Option (List (String × String))
  | [], [] => some []
  | t :: ts, p :: ps =>
    match matchSeg t p, matchSegs ts ps with
    | some v, some vs => some (v ++ vs)
    | _, _ => none
  | _, _ => none

/-- Whether a path matches a route template of `gorilla/mux` whose variables
each fill one whole path element, and the variables when it does. -/
def matchTemplate (template path : String) : Option (List (String × String)) :=
  matchSegs (splitSlash template.data) (splitSlash path.data)

/-- A route of the router: its path template and its handler. -/
structure Route where
  template : String
  handler : Handler

/-- A `mux.Router`: its middlewares and routes, each in registration order. -/
structure Router where
  middlewares : List (Handler → Handler)
  routes : List Route

/-- The call `mux.NewRouter()`. -/
def mux.NewRouter : Router := ⟨[], []⟩

/-- The method `Router.Use(mw)`; `name` labels the middleware in the trace. -/
def Router.Use (rt : Router) (name : String) (mw : Handler → Handler) (s : World) :
    Router × World :=
  ({ rt with middlewares := rt.middlewares ++ [mw] }, s.emit (.routerUse name))

/-- The method `Router.HandleFunc(path, f)`. -/
def Router.HandleFunc (rt : Router) (path : String) (f : Handler) (s : World) :
    Router × World :=
  ({ rt with routes := rt.routes ++ [⟨path, f⟩] }, s.emit (.handleFunc path))

/-- The first route, in registration order, whose template matches the path,
with the variables of the match. -/
def firstMatch : List Route → String → Option (Route × List (String × String))
  | [], _ => none
  | rt :: rest, path =>
    match matchTemplate rt.template path with
    | some vars => some (rt, vars)
    | none => firstMatch rest path

/-- The method `Router.Match`: the handler of the first matching route,
wrapped in the middlewares (the first registered outermost), and the request
carrying the route and its variables.  Middlewares are applied only when a
route matches. -/
def Router.Match (rt : Router) (req : Request) : Option (Handler × Request) :=
  match firstMatch rt.routes req.path with
  | some (route, vars) =>
    some (rt.middlewares.foldr (fun mw h => mw h) route.handler,
      { req with vars := vars, route := some route.template })
  | none => none

/-- The function `http.NotFound(w, r)`: the plain-text reply "404 page not
found" with status 404. -/
def http.NotFound : Handler := fun w _ s =>
  let resp := ((s.responses w).SetHeader "Content-Type" "text/plain; charset=utf-8").SetHeader
    "X-Content-Type-Options" "nosniff"
  (.returned, s.setResponse w ((resp.WriteHeader 404).Write "404 page not found\n"))

/-- The method `(*mux.Router).ServeHTTP(w, req)`: a path that is not clean is
redirected to the clean one with status 301 (the escaping of the location and
the query are left out), a request that matches a route goes to the matched
handler, any other one gets the not-found handler. -/
def Router.ServeHTTP (rt : Router) : Handler := fun w req s =>
  if mux.cleanPath req.path ≠ req.path then
    let resp := (s.responses w).SetHeader "Location" (mux.cleanPath req.path)
    (.returned, s.setResponse w (resp.WriteHeader 301))
  else
    match rt.Match req with
    | some (handler, req2) => handler w req2 s
    | none => http.NotFound w req s

/-- The instrumentation scope of the tracer that `otelmux` starts request
spans with. -/
def otelmux.ScopeName : String :=
  "go.opentelemetry.io/contrib/instrumentation/github.com/gorilla/mux/otelmux"

/-- The span status `otelmux` derives from the status code of the response:
error for a server error or a code that is no HTTP status. -/
def otelmux.serverStatus (code : Nat) : StatusCode :=
  if code < 100 ∨ 600 ≤ code then .error
  else if 500 ≤ code then .error
  else .unset

/-- The middleware `otelmux.Middleware(service)`: it starts the request span
under the context of the request, named after the route template, defers
`span.End()`, runs the next handler with the span in the request context, and
on return sets the span status from the response status.  It has no
`recover`: a panic of the next handler runs the deferred `End` and goes on.
The attributes of the request span and the parent taken from propagation
headers are left out. -/
def otelmux.Middleware (_service : String) : Handler → Handler := fun next w r s =>
  let spanName := r.route.getD ("HTTP " ++ r.method ++ " route not found")
  let ((ctx, span), s1) := Tracer.Start ⟨otelmux.ScopeName, "", ""⟩ r.ctx spanName [] s
  let r2 := { r with ctx := ctx }
  match next w r2 s1 with
  | (.panicked v, s2) => (.panicked v, span.End s2)
  | (.returned, s2) =>
    let s3 := span.SetStatus (otelmux.serverStatus ((s2.responses w).status.getD 200)) s2
    (.returned, span.End s3)

/-! ## `main` -/

/-- The call `godotenv.Load(".env")`: `file` is the outcome of reading and
parsing the file; its variables are set where the environment has none of
that name. -/
def godotenv.Load (file : Except GoError (List (String × String))) (s : World) :
    Option GoError × World :=
  match file with
  | .error err => (some err, s)
  | .ok kvs =>
    let fresh := kvs.filter (fun kv => (s.env.find? (fun e => e.1 = kv.1)).isNone)
    (none, { s with env := s.env ++ fresh })

/-- The calls `log.Fatalf(format, args...)`: the line is logged and the
process exits with status 1. -/
def log.Fatalf (format : String) (args : List FmtArg) (s : World) : World :=
  (s.emit (.logPrintf format args)).emit (.exit 1)

/-- The call `log.Fatal(args...)`: the operands are logged and the process
exits with status 1. -/
def log.Fatal (args : List FmtArg) (s : World) : World :=
  (s.emit (.logPrint args)).emit (.exit 1)

/-- How `main` goes on: the process has exited, or it serves `handler` on
`addr`. -/
inductive MainResult
  | exited (s : World)
  | serving (addr : String) (handler : Handler) (s : World)

/-- The function `main()`, up to the call of `http.ListenAndServe`.  The
router is a pointer: `wrappedMux` wraps the router that the later
`HandleFunc` calls fill, so the served handler sees all four routes. -/
def main (file : Except GoError (List (String × String)))
    (clientStart : Client → Option GoError) (s : World) : MainResult :=
  match godotenv.Load file s with
  | (some _, s1) => .exited (log.Fatalf "Error loading environment variables file" [] s1)
  | (none, s1) =>
    match initTracer clientStart s1 with
    | ((_, some err), s2) => .exited (log.Fatal [.err err] s2)
    | ((_, none), s2) =>
      -- defer tp.Shutdown(...): runs when main returns
      let logLoction := os.Getenv "GTM_LOGS" s2
      let s3 := fmt.Println [.str logLoction] s2
      let r0 := mux.NewRouter
      let (r1, s4) := r0.Use "otelmux" (otelmux.Middleware "gotelemetryexample") s3
      let (r2, s5) := r1.HandleFunc "/" rootHandler s4
      let (r3, s6) := r2.HandleFunc "/hello" helloHandler s5
      let (r4, s7) := r3.HandleFunc "/gopanic" errorEndpoint s6
      let (r5, s8) := r4.HandleFunc "/books/{title}/page/{page}" booksPageGetHandler s7
      let wrappedMux := NewLogger r5.ServeHTTP
      let s9 := fmt.Println [.str "The server is up and running in :8080"] s8
      .serving ":8080" (wrappedMux.ServeHTTP) (s9.emit (.listenAndServe ":8080"))

/-- The router that `main` builds and fills. -/
def mainRouter : Router :=
  { middlewares := [otelmux.Middleware "gotelemetryexample"],
    routes := [⟨"/", rootHandler⟩, ⟨"/hello", helloHandler⟩, ⟨"/gopanic", errorEndpoint⟩,
      ⟨"/books/{title}/page/{page}", booksPageGetHandler⟩] }

/-- The handler that `main` passes to `http.ListenAndServe`. -/
def wrappedMux : Handler := (NewLogger mainRouter.ServeHTTP).ServeHTTP

/-- An incoming request as the server hands it to the handler: no span in
its context, no route yet. -/
def incoming (method path : String) : Request := ⟨method, path, context.Background, [], none⟩

/-! ## What the claims speak of -/

/-- Whether `sub` occurs in `body` as a run of consecutive characters. -/
def bodyContains (body sub : String) : Prop := sub.data <:+: body.data

instance (body sub : String) : Decidable (bodyContains body sub) :=
  inferInstanceAs (Decidable (sub.data <:+: body.data))

/-- The ids of the spans started in a run of effects, in order. -/
def spansStarted : List Event → List Nat
  | [] => []
  | .spanStart id _ _ _ _ :: rest => id :: spansStarted rest
  | _ :: rest => spansStarted rest

/-- The ids of the spans ended in a run of effects, in order. -/
def spansEnded : List Event → List Nat
  | [] => []
  | .spanEnd id :: rest => id :: spansEnded rest
  | _ :: rest => spansEnded rest

/-- The ids of the request spans started in a run of effects, in order: the
spans started by the tracer of the tracing middleware. -/
def requestSpansStarted : List Event → List Nat
  | [] => []
  | .spanStart id tracer _ _ _ :: rest =>
    if tracer = otelmux.ScopeName then id :: requestSpansStarted rest
    else requestSpansStarted rest
  | _ :: rest => requestSpansStarted rest

/-- The ends, in a run of effects, of the request spans started in it. -/
def requestSpansEnded (evs : List Event) : List Nat :=
  (spansEnded evs).filter (fun id => decide (id ∈ requestSpansStarted evs))

/-- The lines sent to the standard logger in a run of effects, in order. -/
def logLines : List Event → List Event
  | [] => []
  | .logPrintf format args :: rest => .logPrintf format args :: logLines rest
  | .logPrint args :: rest => .logPrint args :: logLines rest
  | _ :: rest => logLines rest

/-- The handler `h`, made to note each call it gets, with the writer and the
request it is called with, once `h` is done. -/
def noting (h : Handler) : Handler := fun w r s =>
  ((h w r s).1, (h w r s).2.emit (.call w r))

/-! ## Lemmas -/

theorem logLines_append (xs ys : List Event) :
    logLines (xs ++ ys) = logLines xs ++ logLines ys := by
  induction xs with
  | nil => rfl
  | cons x xs ih => cases x <;> simp [logLines, ih]

theorem Logger_ServeHTTP_returned (h : Handler) (w : ResponseWriter) (r : Request) (s : World)
    (hret : (h w r (time.Now s).2).1 = .returned) :
    Logger.ServeHTTP (NewLogger h) w r s =
      (.returned,
        { (time.Now (time.Now (h w r (time.Now s).2).2).2).2 with
          trace := (h w r (time.Now s).2).2.trace ++
            [.println [.provider (h w r (time.Now s).2).2.tracerProvider],
             .logPrintf "%v %s %s %v"
               [.time (time.Now (h w r (time.Now s).2).2).1, .str r.method, .str r.path,
                .duration ((time.Now (time.Now (h w r (time.Now s).2).2).2).1
                  - (time.Now s).1)]] }) := by
  rcases hts : time.Now s with ⟨start, s1⟩
  rw [hts] at hret
  rcases hres : h w r s1 with ⟨o, s2⟩
  rw [hres] at hret
  simp only at hret
  subst hret
  simp only [Logger.ServeHTTP, NewLogger, hts, hres]
  obtain ⟨clock, ticks, env, tp, pr, nx, resp, tr⟩ := s2
  rcases ticks with _ | ⟨d1, _ | ⟨d2, ds⟩⟩ <;>
    simp [time.Now, time.Since, fmt.Println, log.Printf, World.emit, otel.GetTracerProvider]

theorem Logger_ServeHTTP_panicked (h : Handler) (w : ResponseWriter) (r : Request) (s : World)
    (v : String) (hp : (h w r (time.Now s).2).1 = .panicked v) :
    Logger.ServeHTTP (NewLogger h) w r s = (.panicked v, (h w r (time.Now s).2).2) := by
  rcases hts : time.Now s with ⟨start, s1⟩
  rw [hts] at hp
  rcases hres : h w r s1 with ⟨o, s2⟩
  rw [hres] at hp
  simp only at hp
  subst hp
  simp only [Logger.ServeHTTP, NewLogger, hts, hres]

theorem sprintf_books (t p r : String) :
    fmt.Sprintf "You've requested the book: %s on page %s. The response is %s\n" [t, p, r]
      = "You've requested the book: " ++ t ++ " on page " ++ p ++ ". The response is "
          ++ r ++ "\n" := by
  apply String.ext
  simp [fmt.Sprintf, sprintfAux]

theorem getPage_fst (ctx : Context) (id : String) (s : World) :
    (getPage ctx id s).1 = if id = "123" then "Trace Testing" else "unknown page" := by
  unfold getPage
  by_cases h : id = "123" <;> simp [h]

theorem getPage_snd (ctx : Context) (id : String) (s : World) :
    (getPage ctx id s).2 =
      { s with nextSpan := s.nextSpan + 1,
               trace := s.trace ++
                 [.spanStart s.nextSpan instrumentationName ctx "getPage" [⟨"id", id⟩],
                  .spanEnd s.nextSpan] } := by
  unfold getPage
  by_cases h : id = "123" <;>
    simp [h, Tracer.Start, Span.End, World.emit, tracer, attribute.String]

theorem initTracer_failure (clientStart : Client → Option GoError) (s : World) (err : GoError)
    (h : clientStart ⟨(os.LookupEnv "OTEL_EXPORTER_OTLP_ENDPOINT" s).getD "0.0.0.0:4317",
      true, ""⟩ = some err) :
    initTracer clientStart s =
      ((none, some (fmt.Errorf_w "creating OTLP trace exporter: " err)),
        s.emit (.exporterNew
          ⟨(os.LookupEnv "OTEL_EXPORTER_OTLP_ENDPOINT" s).getD "0.0.0.0:4317", true, ""⟩)) := by
  unfold initTracer otlptrace.New
  cases hl : os.LookupEnv "OTEL_EXPORTER_OTLP_ENDPOINT" s <;>
    simp [hl, otlptracehttp.NewClient, otlptracehttp.WithInsecure, otlptracehttp.WithEndpoint,
      otlptracehttp.WithURLPath] at h ⊢ <;>
    simp [h]

theorem initTracer_success (clientStart : Client → Option GoError) (s : World)
    (h : clientStart ⟨(os.LookupEnv "OTEL_EXPORTER_OTLP_ENDPOINT" s).getD "0.0.0.0:4317",
      true, ""⟩ = none) :
    initTracer clientStart s =
      ((some ⟨.alwaysSample,
          [.batch ⟨⟨(os.LookupEnv "OTEL_EXPORTER_OTLP_ENDPOINT" s).getD "0.0.0.0:4317",
            true, ""⟩⟩], newResource⟩, none),
        { s with
          tracerProvider := .sdk ⟨.alwaysSample,
            [.batch ⟨⟨(os.LookupEnv "OTEL_EXPORTER_OTLP_ENDPOINT" s).getD "0.0.0.0:4317",
              true, ""⟩⟩], newResource⟩,
          propagator := .composite [.traceContext, .baggage],
          trace := s.trace ++ [.exporterNew
            ⟨(os.LookupEnv "OTEL_EXPORTER_OTLP_ENDPOINT" s).getD "0.0.0.0:4317", true, ""⟩] }) := by
  unfold initTracer otlptrace.New
  cases hl : os.LookupEnv "OTEL_EXPORTER_OTLP_ENDPOINT" s <;>
    simp [hl, otlptracehttp.NewClient, otlptracehttp.WithInsecure, otlptracehttp.WithEndpoint,
      otlptracehttp.WithURLPath] at h ⊢ <;>
    simp [h, sdktrace.NewTracerProvider, sdktrace.WithSampler, sdktrace.AlwaysSample,
      sdktrace.WithBatcher, sdktrace.WithResource, otel.SetTracerProvider,
      otel.SetTextMapPropagator, propagation.NewCompositeTextMapPropagator, World.emit]

theorem time_Now_trace (s : World) : (time.Now s).2.trace = s.trace := by
  unfold time.Now; cases s.ticks <;> rfl

theorem time_Now_nextSpan (s : World) : (time.Now s).2.nextSpan = s.nextSpan := by
  unfold time.Now; cases s.ticks <;> rfl

theorem time_Now_responses (s : World) : (time.Now s).2.responses = s.responses := by
  unfold time.Now; cases s.ticks <;> rfl

theorem gopanic_match :
    firstMatch mainRouter.routes "/gopanic" = some (⟨"/gopanic", errorEndpoint⟩, []) := by
  have h1 : matchTemplate "/" "/gopanic" = none := by decide
  have h2 : matchTemplate "/hello" "/gopanic" = none := by decide
  have h3 : matchTemplate "/gopanic" "/gopanic" = some [] := by decide
  simp [mainRouter, firstMatch, h1, h2, h3]

theorem gopanic_router (method : String) (ctx : Context) (vars : List (String × String))
    (route : Option String) (w : ResponseWriter) (s : World) :
    mainRouter.ServeHTTP w ⟨method, "/gopanic", ctx, vars, route⟩ s =
      (.panicked "Deliberatrely Panicing here!! ",
        { s with nextSpan := s.nextSpan + 1,
                 trace := s.trace ++ [.spanStart s.nextSpan otelmux.ScopeName ctx "/gopanic" [],
                                      .spanEnd s.nextSpan] }) := by
  have hc : mux.cleanPath "/gopanic" = "/gopanic" := by decide
  simp [Router.ServeHTTP, Router.Match, hc, gopanic_match]
  simp [mainRouter, otelmux.Middleware, errorEndpoint, Tracer.Start, Span.End, World.emit]

theorem main_serves (kvs : List (String × String)) (clientStart : Client → Option GoError)
    (s0 : World)
    (hok : (initTracer clientStart (godotenv.Load (.ok kvs) s0).2).1.2 = none) :
    ∃ s2, main (.ok kvs) clientStart s0 = .serving ":8080" wrappedMux s2 := by
  have hload : godotenv.Load (.ok kvs) s0 = (none, (godotenv.Load (.ok kvs) s0).2) := rfl
  unfold main
  rw [hload]
  simp only
  rcases hres : initTracer clientStart (godotenv.Load (.ok kvs) s0).2 with ⟨⟨tp, e⟩, s2⟩
  rw [hres] at hok
  simp only at hok
  subst hok
  exact ⟨_, rfl⟩

theorem scope_ne : instrumentationName ≠ otelmux.ScopeName := by decide

theorem firstMatch_main (p : String) :
    firstMatch mainRouter.routes p = none ∨
    (∃ vars, firstMatch mainRouter.routes p = some (⟨"/", rootHandler⟩, vars)) ∨
    (∃ vars, firstMatch mainRouter.routes p = some (⟨"/hello", helloHandler⟩, vars)) ∨
    (∃ vars, firstMatch mainRouter.routes p = some (⟨"/gopanic", errorEndpoint⟩, vars)) ∨
    (∃ vars, firstMatch mainRouter.routes p =
      some (⟨"/books/{title}/page/{page}", booksPageGetHandler⟩, vars)) := by
  simp only [mainRouter, firstMatch]
  cases matchTemplate "/" p with
  | some v => exact Or.inr (Or.inl ⟨v, rfl⟩)
  | none =>
    cases matchTemplate "/hello" p with
    | some v => exact Or.inr (Or.inr (Or.inl ⟨v, rfl⟩))
    | none =>
      cases matchTemplate "/gopanic" p with
      | some v => exact Or.inr (Or.inr (Or.inr (Or.inl ⟨v, rfl⟩)))
      | none =>
        cases matchTemplate "/books/{title}/page/{page}" p with
        | some v => exact Or.inr (Or.inr (Or.inr (Or.inr ⟨v, rfl⟩)))
        | none => exact Or.inl rfl

theorem mainRouter_spans (w : ResponseWriter) (r : Request) (s : World) :
    ∃ evs, (mainRouter.ServeHTTP w r s).2.trace = s.trace ++ evs ∧
      requestSpansStarted evs =
        (if mux.cleanPath r.path = r.path ∧ (mainRouter.Match r).isSome then [s.nextSpan]
         else []) ∧
      requestSpansEnded evs =
        (if mux.cleanPath r.path = r.path ∧ (mainRouter.Match r).isSome then [s.nextSpan]
         else []) := by
  unfold Router.ServeHTTP
  by_cases hc : mux.cleanPath r.path = r.path
  · simp only [hc, ne_eq, not_true_eq_false, ↓reduceIte, true_and]
    unfold Router.Match
    rcases firstMatch_main r.path with h | ⟨v, h⟩ | ⟨v, h⟩ | ⟨v, h⟩ | ⟨v, h⟩
    · refine ⟨[], ?_, ?_, ?_⟩
      · simp [h, http.NotFound, World.setResponse]
      · simp [h, requestSpansStarted]
      · simp [h, requestSpansEnded, spansEnded]
    · refine ⟨[.spanStart s.nextSpan otelmux.ScopeName r.ctx "/" [],
        .spanSetStatus s.nextSpan (otelmux.serverStatus ((s.responses w).status.getD 200)),
        .spanEnd s.nextSpan], ?_, ?_, ?_⟩
      · simp only [h]
        simp [mainRouter, otelmux.Middleware, rootHandler, Tracer.Start, Span.End,
          Span.SetStatus, World.emit, fmt.Fprintf, World.setResponse, Response.Write]
      · simp [h, requestSpansStarted]
      · simp [h, requestSpansEnded, requestSpansStarted, spansEnded]
    · refine ⟨[.spanStart s.nextSpan otelmux.ScopeName r.ctx "/hello" [],
        .spanSetStatus s.nextSpan (otelmux.serverStatus ((s.responses w).status.getD 200)),
        .spanEnd s.nextSpan], ?_, ?_, ?_⟩
      · simp only [h]
        simp [mainRouter, otelmux.Middleware, helloHandler, Tracer.Start, Span.End,
          Span.SetStatus, World.emit, fmt.Fprintf, World.setResponse, Response.Write]
      · simp [h, requestSpansStarted]
      · simp [h, requestSpansEnded, requestSpansStarted, spansEnded]
    · refine ⟨[.spanStart s.nextSpan otelmux.ScopeName r.ctx "/gopanic" [],
        .spanEnd s.nextSpan], ?_, ?_, ?_⟩
      · simp only [h]
        simp [mainRouter, otelmux.Middleware, errorEndpoint, Tracer.Start, Span.End,
          World.emit]
      · simp [h, requestSpansStarted]
      · simp [h, requestSpansEnded, requestSpansStarted, spansEnded]
    · refine ⟨[.spanStart s.nextSpan otelmux.ScopeName r.ctx "/books/{title}/page/{page}" [],
        .spanStart (s.nextSpan + 1) instrumentationName ⟨some s.nextSpan⟩ "getPage"
          [⟨"id", mux.Vars { r with vars := v } "page"⟩],
        .spanEnd (s.nextSpan + 1),
        .spanSetStatus s.nextSpan (otelmux.serverStatus ((s.responses w).status.getD 200)),
        .spanEnd s.nextSpan], ?_, ?_, ?_⟩
      · simp only [h]
        simp [mainRouter, otelmux.Middleware, booksPageGetHandler, getPage_snd, Tracer.Start,
          Span.End, Span.SetStatus, World.emit, fmt.Fprintf, World.setResponse, Response.Write,
          mux.Vars]
      · simp [h, requestSpansStarted, scope_ne]
      · simp [h, requestSpansEnded, requestSpansStarted, spansEnded, scope_ne]
  · refine ⟨[], ?_, ?_, ?_⟩
    · simp [hc, World.setResponse]
    · simp [hc, requestSpansStarted]
    · simp [hc, requestSpansEnded, spansEnded]

theorem requestSpans_logger_tail (evs : List Event) (a : List FmtArg) (f : String)
    (b : List FmtArg) :
    requestSpansStarted (evs ++ [.println a, .logPrintf f b]) = requestSpansStarted evs ∧
    requestSpansEnded (evs ++ [.println a, .logPrintf f b]) = requestSpansEnded evs := by
  have h1 : ∀ xs : List Event,
      requestSpansStarted (xs ++ [.println a, .logPrintf f b]) = requestSpansStarted xs := by
    intro xs
    induction xs with
    | nil => rfl
    | cons x xs ih =>
      cases x <;> simp [requestSpansStarted, ih]
  have h2 : ∀ xs : List Event,
      spansEnded (xs ++ [.println a, .logPrintf f b]) = spansEnded xs := by
    intro xs
    induction xs with
    | nil => rfl
    | cons x xs ih => cases x <;> simp [spansEnded, ih]
  exact ⟨h1 evs, by simp [requestSpansEnded, h1, h2]⟩

/-! ## The claims -/

/-- C1: for every title and page that the route variables of the request hold,
`booksPageGetHandler` returns normally after exactly one write to its response
writer, of the text "You've requested the book: <title> on page <page>. The
response is <getPage(page)>" and a newline, and touches no other writer; every
pair of strings can be the title and the page; so with page 123 the body
contains "Trace Testing" and with page 999 it contains "unknown page".
Through the handler that `main` serves, a request for /books/Dune/page/123
gets exactly the body with "Trace Testing" and one for /books/Dune/page/999
the body with "unknown page". -/
theorem booksPageGetHandler_body (w : ResponseWriter) (r : Request) (s : World) :
    (booksPageGetHandler w r s).1 = .returned ∧
    (booksPageGetHandler w r s).2.responses w =
      (s.responses w).Write
        ("You've requested the book: " ++ mux.Vars r "title" ++ " on page "
          ++ mux.Vars r "page" ++ ". The response is "
          ++ (getPage r.ctx (mux.Vars r "page") s).1 ++ "\n") ∧
    (∀ x, x ≠ w → (booksPageGetHandler w r s).2.responses x = s.responses x) ∧
    (∀ title page : String,
      (booksPageGetHandler w { r with vars := [("title", title), ("page", page)] } s).2.responses w
        = (s.responses w).Write
            ("You've requested the book: " ++ title ++ " on page " ++ page
              ++ ". The response is " ++ (getPage r.ctx page s).1 ++ "\n")) ∧
    (mux.Vars r "page" = "123" →
      bodyContains ((booksPageGetHandler w r s).2.responses w).body "Trace Testing") ∧
    (mux.Vars r "page" = "999" →
      bodyContains ((booksPageGetHandler w r s).2.responses w).body "unknown page") ∧
    (wrappedMux 0 (incoming "GET" "/books/Dune/page/123") (World.initial [] [])).2.responses 0
      = ⟨some 200, [],
          "You've requested the book: Dune on page 123. The response is Trace Testing\n"⟩ ∧
    (wrappedMux 0 (incoming "GET" "/books/Dune/page/999") (World.initial [] [])).2.responses 0
      = ⟨some 200, [],
          "You've requested the book: Dune on page 999. The response is unknown page\n"⟩ := by
  have hw : (booksPageGetHandler w r s).2.responses w =
      (s.responses w).Write
        ("You've requested the book: " ++ mux.Vars r "title" ++ " on page "
          ++ mux.Vars r "page" ++ ". The response is "
          ++ (getPage r.ctx (mux.Vars r "page") s).1 ++ "\n") := by
    simp [booksPageGetHandler, fmt.Fprintf, World.setResponse, sprintf_books, getPage_snd]
  refine ⟨rfl, hw, ?_, ?_, ?_, ?_, by decide, by decide⟩
  · intro x hx
    simp [booksPageGetHandler, fmt.Fprintf, World.setResponse, getPage_snd, hx]
  · intro title page
    simp [booksPageGetHandler, fmt.Fprintf, World.setResponse, sprintf_books, getPage_snd,
      mux.Vars]
  · intro hp
    rw [hw, getPage_fst, hp]
    refine ⟨(s.responses w).body.data ++ ("You've requested the book: " ++ mux.Vars r "title"
      ++ " on page " ++ "123" ++ ". The response is ").data, "\n".data, ?_⟩
    simp [Response.Write, List.append_assoc]
  · intro hp
    rw [hw, getPage_fst, hp]
    refine ⟨(s.responses w).body.data ++ ("You've requested the book: " ++ mux.Vars r "title"
      ++ " on page " ++ "999" ++ ". The response is ").data, "\n".data, ?_⟩
    simp [Response.Write, List.append_assoc]

/-- C2: for every context, id and world, `getPage` returns "Trace Testing" if
and only if the id is the string "123", and "unknown page" for every other
id, "0123", " 123", "123 " and the empty string among them; the result is
the same under every context and world. -/
theorem getPage_result (ctx : Context) (id : String) (s : World) :
    ((getPage ctx id s).1 = "Trace Testing" ↔ id = "123") ∧
    ((getPage ctx id s).1 = "unknown page" ↔ id ≠ "123") ∧
    (getPage ctx "123" s).1 = "Trace Testing" ∧
    (getPage ctx "0123" s).1 = "unknown page" ∧
    (getPage ctx " 123" s).1 = "unknown page" ∧
    (getPage ctx "123 " s).1 = "unknown page" ∧
    (getPage ctx "" s).1 = "unknown page" ∧
    (∀ (ctx2 : Context) (s2 : World), (getPage ctx2 id s2).1 = (getPage ctx id s).1) := by
  refine ⟨?_, ?_, ?_, ?_, ?_, ?_, ?_, ?_⟩
  · rw [getPage_fst]; by_cases h : id = "123" <;> simp [h]
  · rw [getPage_fst]; by_cases h : id = "123" <;> simp [h]
  · rw [getPage_fst]; decide
  · rw [getPage_fst]; decide
  · rw [getPage_fst]; decide
  · rw [getPage_fst]; decide
  · rw [getPage_fst]; decide
  · intro ctx2 s2; rw [getPage_fst, getPage_fst]

/-- C3: for every context, id and world, one call of `getPage` adds exactly two
effects: the start of one span named "getPage" by the program's tracer, under
the given context, with the single attribute id = the id argument, and then
the end of that same span; so one span is started, the same one is ended,
once, on the return for id "123" as on the other one, and nothing else of
the world changes but the id of the next span. -/
theorem getPage_span (ctx : Context) (id : String) (s : World) :
    (getPage ctx id s).2.trace =
      s.trace ++ [.spanStart s.nextSpan "github.com/VarunBhaaskar/GoTelemetryExample" ctx
                    "getPage" [⟨"id", id⟩],
                  .spanEnd s.nextSpan] ∧
    spansStarted ((getPage ctx id s).2.trace.drop s.trace.length) = [s.nextSpan] ∧
    spansEnded ((getPage ctx id s).2.trace.drop s.trace.length) = [s.nextSpan] ∧
    (getPage ctx id s).2.nextSpan = s.nextSpan + 1 ∧
    (getPage ctx id s).2.responses = s.responses ∧
    (getPage ctx id s).2.tracerProvider = s.tracerProvider ∧
    (getPage ctx id s).2.propagator = s.propagator ∧
    (getPage ctx id s).2.env = s.env ∧
    (getPage ctx id s).2.clock = s.clock ∧
    (getPage ctx id s).2.ticks = s.ticks := by
  rw [getPage_snd]
  simp [instrumentationName, spansStarted, spansEnded]

/-- C4, as stated, fails: `Logger.ServeHTTP` around the panicking handler
`errorEndpoint` ends in the panic and has sent no line to the logger, where
the claim has exactly one line for every request. -/
theorem Logger_ServeHTTP_panic_without_log_line :
    (Logger.ServeHTTP (NewLogger errorEndpoint) 0 (incoming "GET" "/gopanic")
        (World.initial [] [1, 2, 3])).1 = .panicked "Deliberatrely Panicing here!! " ∧
    logLines (Logger.ServeHTTP (NewLogger errorEndpoint) 0 (incoming "GET" "/gopanic")
        (World.initial [] [1, 2, 3])).2.trace = [] ∧
    ¬ (logLines (Logger.ServeHTTP (NewLogger errorEndpoint) 0 (incoming "GET" "/gopanic")
        (World.initial [] [1, 2, 3])).2.trace).length = 1 := by
  decide

/-- C4, amended: for every wrapped handler and request, when the wrapped
handler returns normally `Logger.ServeHTTP` sends exactly one line to the
logger after the handler is done, holding the time read after the handler
returned, the method of the request, its URL path and the time elapsed since
the reading taken when the request came in (no status code: the logger never
knows one); when the wrapped handler panics, `Logger.ServeHTTP` ends in the
same panic and sends no line. -/
theorem Logger_ServeHTTP_log_line (h : Handler) (w : ResponseWriter) (r : Request)
    (s : World) :
    ((h w r (time.Now s).2).1 = .returned →
      (Logger.ServeHTTP (NewLogger h) w r s).1 = .returned ∧
      logLines (Logger.ServeHTTP (NewLogger h) w r s).2.trace =
        logLines (h w r (time.Now s).2).2.trace ++
          [.logPrintf "%v %s %s %v"
            [.time (time.Now (h w r (time.Now s).2).2).1, .str r.method, .str r.path,
             .duration ((time.Now (time.Now (h w r (time.Now s).2).2).2).1
               - (time.Now s).1)]]) ∧
    (∀ v, (h w r (time.Now s).2).1 = .panicked v →
      (Logger.ServeHTTP (NewLogger h) w r s).1 = .panicked v ∧
      logLines (Logger.ServeHTTP (NewLogger h) w r s).2.trace =
        logLines (h w r (time.Now s).2).2.trace) := by
  constructor
  · intro hret
    rw [Logger_ServeHTTP_returned h w r s hret]
    simp [logLines_append, logLines]
  · intro v hp
    rw [Logger_ServeHTTP_panicked h w r s v hp]
    exact ⟨rfl, rfl⟩

/-- The amended C4 at concrete inputs: around `rootHandler`, with the clock
advancing by 3, 4 and 5, the one line holds time 7, the method, the path and
the elapsed time 9; around `errorEndpoint` there is no line. -/
theorem Logger_ServeHTTP_log_line_witness :
    logLines (Logger.ServeHTTP (NewLogger rootHandler) 0 (incoming "GET" "/")
        (World.initial [] [3, 4, 5])).2.trace =
      [.logPrintf "%v %s %s %v" [.time 7, .str "GET", .str "/", .duration 9]] ∧
    logLines (Logger.ServeHTTP (NewLogger errorEndpoint) 0 (incoming "GET" "/gopanic")
        (World.initial [] [3, 4, 5])).2.trace = [] :=
  ⟨((Logger_ServeHTTP_log_line rootHandler 0 (incoming "GET" "/")
      (World.initial [] [3, 4, 5])).1 (by decide)).2,
   ((Logger_ServeHTTP_log_line errorEndpoint 0 (incoming "GET" "/gopanic")
      (World.initial [] [3, 4, 5])).2 "Deliberatrely Panicing here!! " (by decide)).2⟩

/-- C10: for every wrapped handler that returns normally and every request,
`Logger.ServeHTTP`, as built by `NewLogger`, returns normally; what has been
sent on every response writer (status, headers, body) is exactly what the
wrapped handler left; the effects are those of the wrapped handler followed
by the logger's print of the tracer provider and then its one log line; and
when the wrapped handler notes its calls, exactly one call is noted, with the
same writer and the same request, before the log line. -/
theorem Logger_ServeHTTP_frame (h : Handler) (w : ResponseWriter) (r : Request) (s : World)
    (hret : (h w r (time.Now s).2).1 = .returned) :
    (Logger.ServeHTTP (NewLogger h) w r s).1 = .returned ∧
    (Logger.ServeHTTP (NewLogger h) w r s).2.responses = (h w r (time.Now s).2).2.responses ∧
    (Logger.ServeHTTP (NewLogger h) w r s).2.trace =
      (h w r (time.Now s).2).2.trace ++
        [.println [.provider (h w r (time.Now s).2).2.tracerProvider],
         .logPrintf "%v %s %s %v"
           [.time (time.Now (h w r (time.Now s).2).2).1, .str r.method, .str r.path,
            .duration ((time.Now (time.Now (h w r (time.Now s).2).2).2).1
              - (time.Now s).1)]] ∧
    (Logger.ServeHTTP (NewLogger (noting h)) w r s).2.trace =
      (h w r (time.Now s).2).2.trace ++
        [.call w r,
         .println [.provider (h w r (time.Now s).2).2.tracerProvider],
         .logPrintf "%v %s %s %v"
           [.time (time.Now (h w r (time.Now s).2).2).1, .str r.method, .str r.path,
            .duration ((time.Now (time.Now (h w r (time.Now s).2).2).2).1
              - (time.Now s).1)]] ∧
    (Logger.ServeHTTP (NewLogger h) w r s).2.tracerProvider
      = (h w r (time.Now s).2).2.tracerProvider ∧
    (Logger.ServeHTTP (NewLogger h) w r s).2.propagator
      = (h w r (time.Now s).2).2.propagator := by
  have hn : (noting h w r (time.Now s).2).1 = .returned := hret
  rw [Logger_ServeHTTP_returned h w r s hret, Logger_ServeHTTP_returned (noting h) w r s hn]
  have hnote : noting h w r (time.Now s).2 =
      ((h w r (time.Now s).2).1, (h w r (time.Now s).2).2.emit (.call w r)) := rfl
  rw [hnote]
  generalize (time.Now s).1 = start
  generalize h w r (time.Now s).2 = res
  obtain ⟨o, ⟨clock, ticks, env, tp, pr, nx, resp, tr⟩⟩ := res
  rcases ticks with _ | ⟨d1, _ | ⟨d2, ds⟩⟩ <;>
    simp [time.Now, World.emit]

/-- C10 at a concrete input: around `rootHandler`, with the clock advancing by
3, 4 and 5, the response is the handler's and the effects end in the print
and the log line. -/
theorem Logger_ServeHTTP_frame_witness :
    (rootHandler 0 (incoming "GET" "/") (time.Now (World.initial [] [3, 4, 5])).2).1
      = .returned ∧
    (Logger.ServeHTTP (NewLogger rootHandler) 0 (incoming "GET" "/")
        (World.initial [] [3, 4, 5])).2.responses 0
      = ⟨some 200, [], "Go Server for GoTelemetryExample is up and running!\n"⟩ ∧
    (Logger.ServeHTTP (NewLogger (noting rootHandler)) 0 (incoming "GET" "/")
        (World.initial [] [3, 4, 5])).2.trace =
      [.call 0 (incoming "GET" "/"), .println [.provider .default],
       .logPrintf "%v %s %s %v" [.time 7, .str "GET", .str "/", .duration 9]] :=
  ⟨by decide,
   by
    rw [(Logger_ServeHTTP_frame rootHandler 0 (incoming "GET" "/")
      (World.initial [] [3, 4, 5]) (by decide)).2.1]
    decide,
   by
    rw [(Logger_ServeHTTP_frame rootHandler 0 (incoming "GET" "/")
      (World.initial [] [3, 4, 5]) (by decide)).2.2.2.1]
    decide⟩

/-- C7: for every environment and whatever starting the client gives,
`initTracer` builds exactly one export client, and the endpoint it gives that
client is the value of OTEL_EXPORTER_OTLP_ENDPOINT when the variable is set,
the empty string included, and "0.0.0.0:4317" when it is unset, the only case
in which the fallback is taken (a variable set to that very address gives it
too, as its own value). -/
theorem initTracer_endpoint (clientStart : Client → Option GoError) (s : World) :
    (∃ c, (initTracer clientStart s).2.trace = s.trace ++ [.exporterNew c] ∧
      c.endpoint =
        (match os.LookupEnv "OTEL_EXPORTER_OTLP_ENDPOINT" s with
         | some v => v
         | none => "0.0.0.0:4317") ∧
      (c.endpoint = "0.0.0.0:4317" ↔
        os.LookupEnv "OTEL_EXPORTER_OTLP_ENDPOINT" s = none ∨
        os.LookupEnv "OTEL_EXPORTER_OTLP_ENDPOINT" s = some "0.0.0.0:4317")) ∧
    (∀ v, os.LookupEnv "OTEL_EXPORTER_OTLP_ENDPOINT" s = some v →
      (initTracer clientStart s).2.trace = s.trace ++ [.exporterNew ⟨v, true, ""⟩]) ∧
    (os.LookupEnv "OTEL_EXPORTER_OTLP_ENDPOINT" s = none →
      (initTracer clientStart s).2.trace =
        s.trace ++ [.exporterNew ⟨"0.0.0.0:4317", true, ""⟩]) ∧
    (initTracer clientStart
        (World.initial [("OTEL_EXPORTER_OTLP_ENDPOINT", "")] [])).2.trace
      = [.exporterNew ⟨"", true, ""⟩] ∧
    (initTracer clientStart
        (World.initial [("OTEL_EXPORTER_OTLP_ENDPOINT", "collector:4318")] [])).2.trace
      = [.exporterNew ⟨"collector:4318", true, ""⟩] ∧
    (initTracer clientStart (World.initial [("GTM_LOGS", "/tmp")] [])).2.trace
      = [.exporterNew ⟨"0.0.0.0:4317", true, ""⟩] := by
  have key : ∀ s : World, (initTracer clientStart s).2.trace = s.trace ++ [.exporterNew
      ⟨(os.LookupEnv "OTEL_EXPORTER_OTLP_ENDPOINT" s).getD "0.0.0.0:4317", true, ""⟩] := by
    intro s
    cases hc : clientStart
      ⟨(os.LookupEnv "OTEL_EXPORTER_OTLP_ENDPOINT" s).getD "0.0.0.0:4317", true, ""⟩ with
    | none => rw [initTracer_success clientStart s hc]
    | some err => rw [initTracer_failure clientStart s err hc]; rfl
  refine ⟨⟨_, key s, ?_, ?_⟩, ?_, ?_, ?_, ?_, ?_⟩
  · cases os.LookupEnv "OTEL_EXPORTER_OTLP_ENDPOINT" s <;> rfl
  · cases os.LookupEnv "OTEL_EXPORTER_OTLP_ENDPOINT" s <;> simp
  · intro v hv; rw [key, hv]; rfl
  · intro hv; rw [key, hv]; rfl
  · rw [key]; decide
  · rw [key]; decide
  · rw [key]; decide

/-- C8: `initTracer` returns an error exactly when building the exporter
(`otlptrace.New` on the client it built) fails; then it returns no provider,
the error is the exporter's error wrapped under the text "creating OTLP trace
exporter: ", and the process-wide tracer provider and propagator are the ones
from before the call; and `main`, once the environment file is loaded, logs
that error and exits with status 1, having registered no middleware and no
route and not listening. -/
theorem initTracer_error (clientStart : Client → Option GoError) :
    (∀ s : World, ∃ c, (initTracer clientStart s).2.trace = s.trace ++ [.exporterNew c] ∧
      ((initTracer clientStart s).1.2 ≠ none ↔
        ∃ err, (otlptrace.New clientStart context.Background c s).1 = .error err) ∧
      (∀ err, (otlptrace.New clientStart context.Background c s).1 = .error err →
        (initTracer clientStart s).1.1 = none ∧
        (∃ e, (initTracer clientStart s).1.2 = some e ∧
          e.Error = "creating OTLP trace exporter: " ++ err.Error ∧ e.Unwrap = some err) ∧
        (initTracer clientStart s).2.tracerProvider = s.tracerProvider ∧
        (initTracer clientStart s).2.propagator = s.propagator)) ∧
    (∀ (kvs : List (String × String)) (s0 : World) (e : GoError),
      (initTracer clientStart (godotenv.Load (.ok kvs) s0).2).1.2 = some e →
      ∃ c s2, main (.ok kvs) clientStart s0 = .exited s2 ∧
        s2.trace = s0.trace ++ [.exporterNew c, .logPrint [.err e], .exit 1] ∧
        s2.tracerProvider = s0.tracerProvider ∧
        s2.propagator = s0.propagator) := by
  constructor
  · intro s
    refine ⟨⟨(os.LookupEnv "OTEL_EXPORTER_OTLP_ENDPOINT" s).getD "0.0.0.0:4317", true, ""⟩,
      ?_, ?_, ?_⟩
    · cases hc : clientStart
        ⟨(os.LookupEnv "OTEL_EXPORTER_OTLP_ENDPOINT" s).getD "0.0.0.0:4317", true, ""⟩ with
      | none => rw [initTracer_success clientStart s hc]
      | some err => rw [initTracer_failure clientStart s err hc]; rfl
    · cases hc : clientStart
        ⟨(os.LookupEnv "OTEL_EXPORTER_OTLP_ENDPOINT" s).getD "0.0.0.0:4317", true, ""⟩ with
      | none => rw [initTracer_success clientStart s hc]; simp [otlptrace.New, hc]
      | some err => rw [initTracer_failure clientStart s err hc]; simp [otlptrace.New, hc]
    · intro err herr
      cases hc : clientStart
        ⟨(os.LookupEnv "OTEL_EXPORTER_OTLP_ENDPOINT" s).getD "0.0.0.0:4317", true, ""⟩ with
      | none => simp [otlptrace.New, hc] at herr
      | some err2 =>
        simp [otlptrace.New, hc] at herr
        subst herr
        rw [initTracer_failure clientStart s err2 hc]
        simp [fmt.Errorf_w, GoError.Error, GoError.Unwrap, World.emit]
  · intro kvs s0 e he
    have hload : godotenv.Load (.ok kvs) s0 = (none, (godotenv.Load (.ok kvs) s0).2) := rfl
    cases hc : clientStart
        ⟨(os.LookupEnv "OTEL_EXPORTER_OTLP_ENDPOINT" (godotenv.Load (.ok kvs) s0).2).getD
          "0.0.0.0:4317", true, ""⟩ with
    | none =>
      rw [initTracer_success clientStart _ hc] at he
      simp at he
    | some err =>
      rw [initTracer_failure clientStart _ err hc] at he
      simp at he
      subst he
      refine ⟨⟨(os.LookupEnv "OTEL_EXPORTER_OTLP_ENDPOINT"
          (godotenv.Load (.ok kvs) s0).2).getD "0.0.0.0:4317", true, ""⟩,
        log.Fatal [.err (fmt.Errorf_w "creating OTLP trace exporter: " err)]
          (initTracer clientStart (godotenv.Load (.ok kvs) s0).2).2, ?_, ?_, ?_, ?_⟩
      · unfold main
        rw [hload]
        simp only
        rw [initTracer_failure clientStart _ err hc]
      · rw [initTracer_failure clientStart _ err hc]
        simp [log.Fatal, World.emit, godotenv.Load]
      · rw [initTracer_failure clientStart _ err hc]
        simp [log.Fatal, World.emit, godotenv.Load]
      · rw [initTracer_failure clientStart _ err hc]
        simp [log.Fatal, World.emit, godotenv.Load]

/-- C8 at a concrete input: with a client that fails to start, from the world
at process start, `main` ends with the trace of one exporter built over the
default endpoint, one logged error and the exit. -/
theorem initTracer_error_witness :
    (initTracer (fun _ => some (.plain "dial tcp: connection refused"))
        (godotenv.Load (.ok []) (World.initial [] [])).2).1.2
      = some (.wrapped "creating OTLP trace exporter: dial tcp: connection refused"
          (.plain "dial tcp: connection refused")) ∧
    ∃ c s2, main (.ok []) (fun _ => some (.plain "dial tcp: connection refused"))
        (World.initial [] []) = .exited s2 ∧
      s2.trace = (World.initial [] []).trace ++
        [.exporterNew c,
         .logPrint [.err (.wrapped "creating OTLP trace exporter: dial tcp: connection refused"
           (.plain "dial tcp: connection refused"))],
         .exit 1] ∧
      s2.tracerProvider = (World.initial [] []).tracerProvider ∧
      s2.propagator = (World.initial [] []).propagator :=
  ⟨by decide,
   (initTracer_error (fun _ => some (.plain "dial tcp: connection refused"))).2 []
     (World.initial [] []) _ (by decide)⟩

/-- C9: whenever `initTracer` returns no error it returns a provider whose
sampler is the always-sample one, which decides to sample under every
sampling parameter, whose only span processor is a batcher over the exporter
built on the client, and whose resource is that of `newResource`; that same
provider is then the process-wide tracer provider, and the process-wide
propagator is the composite of trace-context followed by baggage.  This holds
in every world, so for every environment and configuration. -/
theorem initTracer_provider (clientStart : Client → Option GoError) (s : World)
    (hok : (initTracer clientStart s).1.2 = none) :
    ∃ tp c, (initTracer clientStart s).1.1 = some tp ∧
      tp.sampler = .alwaysSample ∧
      (∀ p : SamplingParameters, tp.sampler.ShouldSample p = true) ∧
      (initTracer clientStart s).2.trace = s.trace ++ [.exporterNew c] ∧
      tp.processors = [.batch ⟨c⟩] ∧
      tp.resource = newResource ∧
      (initTracer clientStart s).2.tracerProvider = .sdk tp ∧
      otel.GetTracerProvider (initTracer clientStart s).2 = .sdk tp ∧
      (initTracer clientStart s).2.propagator = .composite [.traceContext, .baggage] := by
  cases hc : clientStart
      ⟨(os.LookupEnv "OTEL_EXPORTER_OTLP_ENDPOINT" s).getD "0.0.0.0:4317", true, ""⟩ with
  | some err =>
    rw [initTracer_failure clientStart s err hc] at hok
    simp at hok
  | none =>
    rw [initTracer_success clientStart s hc]
    refine ⟨_, _, rfl, rfl, ?_, rfl, rfl, rfl, rfl, rfl, rfl⟩
    intro p
    rfl

/-- C9 at a concrete input: with a client that starts, from the world at
process start, the provider returned and installed samples always. -/
theorem initTracer_provider_witness :
    (initTracer (fun _ => none) (World.initial [] [])).1.2 = none ∧
    ∃ tp c, (initTracer (fun _ => none) (World.initial [] [])).1.1 = some tp ∧
      tp.sampler = .alwaysSample ∧
      (∀ p : SamplingParameters, tp.sampler.ShouldSample p = true) ∧
      (initTracer (fun _ => none) (World.initial [] [])).2.trace
        = (World.initial [] []).trace ++ [.exporterNew c] ∧
      tp.processors = [.batch ⟨c⟩] ∧
      tp.resource = newResource ∧
      (initTracer (fun _ => none) (World.initial [] [])).2.tracerProvider = .sdk tp ∧
      otel.GetTracerProvider (initTracer (fun _ => none) (World.initial [] [])).2 = .sdk tp ∧
      (initTracer (fun _ => none) (World.initial [] [])).2.propagator
        = .composite [.traceContext, .baggage] :=
  ⟨by decide, initTracer_provider (fun _ => none) (World.initial [] []) (by decide)⟩

/-- C5, as stated, fails: through the handler that `main` serves, a request for
/gopanic ends in the panic of `errorEndpoint`, which leaves `Logger.ServeHTTP`;
no status, so no 500, is written to the response, and the only effects are
the start and the end of the request span: its status is never set. -/
theorem gopanic_panic_leaves_Logger :
    (wrappedMux 0 (incoming "GET" "/gopanic") (World.initial [] [1, 2, 3])).1
      = .panicked "Deliberatrely Panicing here!! " ∧
    ((wrappedMux 0 (incoming "GET" "/gopanic") (World.initial [] [1, 2, 3])).2.responses 0).status
      = none ∧
    (wrappedMux 0 (incoming "GET" "/gopanic") (World.initial [] [1, 2, 3])).2.trace
      = [.spanStart 0 otelmux.ScopeName context.Background "/gopanic" [], .spanEnd 0] := by
  decide

/-- C5, amended: `main`, when it gets to serve, serves the chain `wrappedMux`
(`Logger` around the router with the tracing middleware), and for every
request to /gopanic, whatever its method, context and world, the panic of
`errorEndpoint` is recovered nowhere in that chain: `Logger.ServeHTTP` ends in
that same panic, every response is left as it was (no status is written), and
the effects are the start of the request span followed by its end, run by the
deferred call of the tracing middleware, with no status set on the span and
no log line. -/
theorem gopanic_not_recovered (method : String) (ctx : Context)
    (vars : List (String × String)) (route : Option String) (w : ResponseWriter)
    (s : World) :
    (∀ kvs clientStart s0,
      (initTracer clientStart (godotenv.Load (.ok kvs) s0).2).1.2 = none →
      ∃ s2, main (.ok kvs) clientStart s0 = .serving ":8080" wrappedMux s2) ∧
    (wrappedMux w ⟨method, "/gopanic", ctx, vars, route⟩ s).1
      = .panicked "Deliberatrely Panicing here!! " ∧
    (wrappedMux w ⟨method, "/gopanic", ctx, vars, route⟩ s).2.responses = s.responses ∧
    (wrappedMux w ⟨method, "/gopanic", ctx, vars, route⟩ s).2.trace =
      s.trace ++ [.spanStart s.nextSpan otelmux.ScopeName ctx "/gopanic" [],
                  .spanEnd s.nextSpan] := by
  have hp : (mainRouter.ServeHTTP w ⟨method, "/gopanic", ctx, vars, route⟩ (time.Now s).2).1
      = .panicked "Deliberatrely Panicing here!! " := by
    rw [gopanic_router]
  refine ⟨main_serves, ?_⟩
  unfold wrappedMux
  rw [Logger_ServeHTTP_panicked _ w _ s _ hp, gopanic_router]
  simp [time_Now_trace, time_Now_nextSpan, time_Now_responses]

/-- C6, as stated, fails: through the handler that `main` serves, a request for
/nope, which matches none of the four routes, is answered with status 404
and starts no request span, where the claim has exactly one for every
request. -/
theorem unrouted_request_starts_no_span :
    ((wrappedMux 0 (incoming "GET" "/nope") (World.initial [] [1, 2, 3])).2.responses 0).status
      = some 404 ∧
    requestSpansStarted (wrappedMux 0 (incoming "GET" "/nope") (World.initial [] [1, 2, 3])).2.trace
      = [] ∧
    ¬ (requestSpansStarted
        (wrappedMux 0 (incoming "GET" "/nope") (World.initial [] [1, 2, 3])).2.trace).length = 1 := by
  decide

/-- C6, amended: `main`, when it gets to serve, serves the chain `wrappedMux`,
and for every request handled by that chain the effects of the request start
exactly one request span and end that span exactly once when the path is
clean and matches one of the four routes, whether the handler returns or
panics, /gopanic included; a request that matches no route, or whose path the
router redirects, starts and ends no request span. -/
theorem wrappedMux_request_span (w : ResponseWriter) (r : Request) (s : World) :
    (∀ kvs clientStart s0,
      (initTracer clientStart (godotenv.Load (.ok kvs) s0).2).1.2 = none →
      ∃ s2, main (.ok kvs) clientStart s0 = .serving ":8080" wrappedMux s2) ∧
    ∃ evs, (wrappedMux w r s).2.trace = s.trace ++ evs ∧
      requestSpansStarted evs =
        (if mux.cleanPath r.path = r.path ∧ (mainRouter.Match r).isSome then [s.nextSpan]
         else []) ∧
      requestSpansEnded evs =
        (if mux.cleanPath r.path = r.path ∧ (mainRouter.Match r).isSome then [s.nextSpan]
         else []) := by
  refine ⟨main_serves, ?_⟩
  obtain ⟨evs, htrace, hstart, hend⟩ := mainRouter_spans w r (time.Now s).2
  rw [time_Now_trace, time_Now_nextSpan] at *
  unfold wrappedMux
  cases ho : (mainRouter.ServeHTTP w r (time.Now s).2).1 with
  | returned =>
    rw [Logger_ServeHTTP_returned _ w r s ho]
    refine ⟨evs ++ [.println [.provider (mainRouter.ServeHTTP w r (time.Now s).2).2.tracerProvider],
      .logPrintf "%v %s %s %v"
        [.time (time.Now (mainRouter.ServeHTTP w r (time.Now s).2).2).1, .str r.method,
         .str r.path,
         .duration ((time.Now (time.Now (mainRouter.ServeHTTP w r (time.Now s).2).2).2).1
           - (time.Now s).1)]], ?_, ?_, ?_⟩
    · simp [htrace]
    · rw [(requestSpans_logger_tail evs _ _ _).1, hstart]
    · rw [(requestSpans_logger_tail evs _ _ _).2, hend]
  | panicked v =>
    rw [Logger_ServeHTTP_panicked _ w r s v ho]
    exact ⟨evs, htrace, hstart, hend⟩

/-- The amended C6 at concrete inputs: the request for /gopanic, which ends in
a panic, starts the request span 0 and ends it; so does the request for
/books/Dune/page/123, which also starts and ends the span of `getPage`. -/
theorem wrappedMux_request_span_witness :
    (∃ evs, (wrappedMux 0 (incoming "GET" "/gopanic") (World.initial [] [])).2.trace
        = (World.initial [] []).trace ++ evs ∧
      requestSpansStarted evs = [0] ∧ requestSpansEnded evs = [0]) ∧
    (wrappedMux 0 (incoming "GET" "/gopanic") (World.initial [] [])).1
      = .panicked "Deliberatrely Panicing here!! " ∧
    spansStarted (wrappedMux 0 (incoming "GET" "/books/Dune/page/123")
      (World.initial [] [])).2.trace = [0, 1] ∧
    requestSpansStarted (wrappedMux 0 (incoming "GET" "/books/Dune/page/123")
      (World.initial [] [])).2.trace = [0] ∧
    requestSpansEnded (wrappedMux 0 (incoming "GET" "/books/Dune/page/123")
      (World.initial [] [])).2.trace = [0] := by
  refine ⟨?_, by decide, by decide, by decide, by decide⟩
  obtain ⟨evs, h1, h2, h3⟩ :=
    (wrappedMux_request_span 0 (incoming "GET" "/gopanic") (World.initial [] [])).2
  refine ⟨evs, h1, ?_, ?_⟩
  · rw [h2]; decide
  · rw [h3]; decide

end GoTelemetryExample
